import Mathlib

set_option autoImplicit false

/-!
Verification development for `src/visa_checker.py`, the monitor for the
US visa appointment-scheduling portal.  The Python source (and the
JavaScript hook it injects into the page) is shallowly embedded below:
pure logic becomes Lean functions, page/network effects become explicit
parameters describing the outcome of each external call, and exceptions
become `Except`.
-/

namespace VisaChecker

/-- Global retry configuration of the source: `MAX_RETRIES = 5`. -/
def MAX_RETRIES : Nat := 5

/-- Global retry configuration of the source: `RETRY_DELAY_SECONDS = 2`. -/
def RETRY_DELAY_SECONDS : Nat := 2

/-- Character-list helper: the first list starts the second one. -/
def leadsWith : List Char → List Char → Bool
  | [], _ => true
  | _ :: _, [] => false
  | p :: ps, c :: cs => (p == c) && leadsWith ps cs

/-- Character-list helper: the first list occurs contiguously inside the
second one. -/
def occursIn (pat s : List Char) : Bool :=
  match s with
  | [] => leadsWith pat []
  | _ :: rest => leadsWith pat s || occursIn pat rest

/-- Substring check, modelling both JavaScript's `url.includes(pat)` and
Python's `pat in s`. -/
def containsSub (s pat : String) : Bool := occursIn pat.toList s.toList

/-- Target substring recognised by the injected hook (`TARGET_SUBSTR`). -/
def TARGET_SUBSTR : String :=
  "/custom-actions/?route=/api/v1/schedule-group/get-family-consular-schedule-days"

/-- Calendar date carried by a well-formed `YYYY-MM-DD` string. -/
structure YMD where
  year : Nat
  month : Nat
  day : Nat
  deriving DecidableEq, Repr

/-- Bounds under which the epoch encoding below orders dates faithfully:
month below 13 and day below 32, as any `YYYY-MM-DD` string accepted by
`new Date` satisfies. -/
def YMD.inCalendarRange (d : YMD) : Bool :=
  decide (d.month < 13) && decide (d.day < 32)

/-- Epoch value JavaScript assigns to `new Date("YYYY-MM-DDTHH:MM:SS")`,
modelled up to a strictly monotone rescaling as a lexicographic encoding
of the date plus the second of day.  Comparisons of such values agree
with real epoch comparisons whenever the dates are `inCalendarRange` and
`sec < 86400`. -/
def jsDateTime (d : YMD) (sec : Nat) : Nat :=
  ((d.year * 13 + d.month) * 32 + d.day) * 86400 + sec

/-- Calendar order on dates, the order meant by the phrase "date lies
within the range": year first, then month, then day. -/
def YMD.dateLe (a b : YMD) : Prop :=
  a.year < b.year ∨
    (a.year = b.year ∧ (a.month < b.month ∨ (a.month = b.month ∧ a.day ≤ b.day)))

instance (a b : YMD) : Decidable (a.dateLe b) := by
  unfold YMD.dateLe
  exact inferInstance

/-- Value of the hook's `START_DATE` / `END_DATE` string constant as the
in-page script sees it: `unset` models the empty string (falsy in JS),
`valid` a well-formed `YYYY-MM-DD` string, and `invalid` a non-empty
string that `new Date` turns into an Invalid Date (every comparison with
it is false). -/
inductive HookDate
  | unset
  | valid (d : YMD)
  | invalid
  deriving DecidableEq, Repr

/-- Truthiness of the underlying string in the JS condition
`START_DATE && END_DATE`. -/
def HookDate.truthy : HookDate → Bool
  | .unset => false
  | _ => true

/-- Entry of the API's `ScheduleDays` array; `date = none` models a `Date`
field that `new Date(d.Date + 'T00:00:00')` cannot parse. -/
structure ScheduleDay where
  date : Option YMD
  deriving DecidableEq, Repr

/-- Date-range configuration embedded into the hook script by
`inject_fetch_hook` (the `START_DATE` and `END_DATE` constants). -/
structure HookPrefs where
  START_DATE : HookDate
  END_DATE : HookDate
  deriving DecidableEq, Repr

/-- Filter predicate used by `analyseAvailability`:
`dt >= s && dt <= e` with `dt = new Date(d.Date + 'T00:00:00')`,
`s = new Date(START_DATE + 'T00:00:00')` and
`e = new Date(END_DATE + 'T23:59:59')`; a day whose date is an Invalid
Date compares false on both sides and is dropped. -/
def dayMatches (s e : YMD) (d : ScheduleDay) : Bool :=
  match d.date with
  | some dt =>
      decide (jsDateTime s 0 ≤ jsDateTime dt 0) &&
        decide (jsDateTime dt 0 ≤ jsDateTime e 86399)
  | none => false

/-- Function `analyseAvailability` of the injected hook script, returning
its `hasSlots` value; the script fires the notification GET exactly when
this is `true`.  The argument `scheduleDays = none` models a parsed body
whose `ScheduleDays` is absent or not an array
(`Array.isArray(json?.ScheduleDays)` false). -/
def analyseAvailability (p : HookPrefs) (scheduleDays : Option (List ScheduleDay)) : Bool :=
  if p.START_DATE.truthy && p.END_DATE.truthy then
    match p.START_DATE, p.END_DATE, scheduleDays with
    | .valid s, .valid e, some days => decide (0 < (days.filter (dayMatches s e)).length)
    | _, _, _ => false
  else
    match scheduleDays with
    | some days => decide (0 < days.length)
    | none => false

/-- Outcome of parsing an intercepted response body. -/
inductive ParsedBody
  | malformed
  | notAnArray
  | withDays (days : List ScheduleDay)
  deriving DecidableEq, Repr

/-- Wrapped `fetch` path of the hook: on a URL containing `TARGET_SUBSTR`
the body is parsed with `res.clone().json()`; a rejected parse is
swallowed by `.catch(()=>{})` and `analyseAvailability` never runs.
Returns whether the notification request was fired for this response. -/
def fetchHookNotifies (p : HookPrefs) (url : String) (body : ParsedBody) : Bool :=
  if containsSub url TARGET_SUBSTR then
    match body with
    | .malformed => false
    | .notAnArray => analyseAvailability p none
    | .withDays days => analyseAvailability p (some days)
  else false

/-- XHR `load` listener of the hook: on a URL containing `TARGET_SUBSTR`
it runs `JSON.parse(this.responseText)`; a parse exception is caught and
logged, and `analyseAvailability` never runs.  Returns whether the
notification request was fired for this response. -/
def xhrLoadNotifies (p : HookPrefs) (url : String) (body : ParsedBody) : Bool :=
  if containsSub url TARGET_SUBSTR then
    match body with
    | .malformed => false
    | .notAnArray => analyseAvailability p none
    | .withDays days => analyseAvailability p (some days)
  else false

/-! Hook installation (`inject_fetch_hook`, lines 147-233) -/

/-- Script-visible state of one live page context: the guard flag
`window.__APPT_HOOK_INSTALLED__` and how many wrapper layers currently
enclose `window.fetch` and `XMLHttpRequest.prototype.send`. -/
structure PageContext where
  hookInstalled : Bool
  fetchWrapDepth : Nat
  xhrWrapDepth : Nat
  deriving DecidableEq, Repr

/-- Injected IIFE of `inject_fetch_hook`: it returns at once when the
guard flag is already set, and otherwise sets the flag and wraps the
`fetch` API and the XHR send method one more time each. -/
def installHook (c : PageContext) : PageContext :=
  if c.hookInstalled then c
  else
    { hookInstalled := true
      fetchWrapDepth := c.fetchWrapDepth + 1
      xhrWrapDepth := c.xhrWrapDepth + 1 }

/-- Page context right after a navigation: the script context is new, so
no guard flag and no wrappers. -/
def freshContext : PageContext := ⟨false, 0, 0⟩

/-- Repeated invocations of the installer against the same live page
context, as the supervisor's cadence produces them. -/
def installN : Nat → PageContext → PageContext
  | 0, c => c
  | n + 1, c => installHook (installN n c)

/-- Number of times the hook's response analysis runs for a single
qualifying network response: every active `fetch` wrapper layer whose URL
test matches invokes it once. -/
def hookFireCount (c : PageContext) (urlMatches : Bool) : Nat :=
  if urlMatches then c.fetchWrapDepth else 0

/-- One iteration of the supervisor `_ensure_fetch_hook`: the injection
attempt is wrapped in try/except, so a raising injection leaves the page
context unchanged and the loop running. -/
def ensureFetchHookStep (c : PageContext) (injectionRaises : Bool) : PageContext :=
  if injectionRaises then c else installHook c

/-! Page classification and the Session Orchestrator (`is_login_required`,
`is_waiting_room`, `main`, lines 102-136 and 544-594).  Outcomes of the
individual browser calls are passed in explicitly; `Except.error ()`
models the call raising an exception. -/

/-- Outcome of one `page.evaluate` probe for the body style attribute. -/
abbrev StyleProbe := Except Unit (Option String)

/-- File name of the waiting-room background image asset. -/
def WAITING_ROOM_ASSET : String := "waiting_room_background_en-US.png"

/-- Identity-provider (Microsoft B2C) domain tested by the login check. -/
def B2C_DOMAIN : String := "b2clogin.com"

/-- Function `is_waiting_room`: the whole DOM probe sits inside
try/except, so a raising probe falls through to `return False`. -/
def is_waiting_room (probe : StyleProbe) : Bool :=
  match probe with
  | .error _ => false
  | .ok none => false
  | .ok (some styleAttr) => containsSub styleAttr WAITING_ROOM_ASSET

/-- Loop `while await is_waiting_room(page)` of `main`, driven by the
successive probe outcomes; one probe is consumed per iteration and the
probes never examined are returned.  No exception can escape, because
`is_waiting_room` swallows probe failures. -/
def waitOutWaitingRoom : List StyleProbe → List StyleProbe
  | [] => []
  | probe :: rest => if is_waiting_room probe then waitOutWaitingRoom rest else rest

/-- Function `is_login_required`: obtaining the URL (attribute access with
an `evaluate` fallback) and the password-input query are not guarded, so
an exception in either propagates to the caller.  `urlProbe` and
`pwdProbe` are the outcomes of those two page calls; `pwdProbe = .ok b`
means the query returned an element (`b = true`) or `None`. -/
def is_login_required (urlProbe : Except Unit String) (pwdProbe : Except Unit Bool) :
    Except Unit Bool :=
  match urlProbe with
  | .error e => .error e
  | .ok url =>
    if (url != "") && containsSub url B2C_DOMAIN then .ok true
    else
      match pwdProbe with
      | .error e => .error e
      | .ok pwd => .ok pwd

/-- Outcomes of the external calls `main` performs between reaching the
page and starting the hook supervisor. -/
structure OrchEnv where
  preLoginProbes : List StyleProbe
  urlProbe : Except Unit String
  pwdProbe : Except Unit Bool
  loginResult : Except Unit Bool
  postLoginProbes : List StyleProbe

/-- Login section of `main` (lines 551-572): the waiting-room loops
swallow probe failures inside `is_waiting_room`, but the calls to
`is_login_required` and `perform_login` are not wrapped in any
try/except, so an exception from either escapes `main` (and with it the
process's only task).  `loginResult = .error ()` models `perform_login`
raising; `.ok b` models it returning success flag `b`. -/
def orchestratorLoginPhase (env : OrchEnv) : Except Unit Unit :=
  let _ := waitOutWaitingRoom env.preLoginProbes
  match is_login_required env.urlProbe env.pwdProbe with
  | .error e => .error e
  | .ok needLogin =>
    if needLogin then
      match env.loginResult with
      | .error e => .error e
      | .ok success =>
        if success then
          let _ := waitOutWaitingRoom env.postLoginProbes
          .ok ()
        else .ok ()
    else .ok ()

/-- Signals a successfully inspected page offers to classification. -/
structure PageSnapshot where
  url : String
  hasPasswordInput : Bool
  bodyStyle : Option String
  deriving DecidableEq, Repr

/-- Classification outcome for a page. -/
inductive PageState
  | WaitingRoom
  | LoginChallenge
  | SchedulingPage
  deriving DecidableEq, Repr

/-- Waiting-room test on a successfully inspected page. -/
def is_waiting_room_of (p : PageSnapshot) : Bool :=
  match p.bodyStyle with
  | some styleAttr => containsSub styleAttr WAITING_ROOM_ASSET
  | none => false

/-- Login test on a successfully inspected page: the B2C-domain URL check
runs first, then the password-input check. -/
def is_login_required_of (p : PageSnapshot) : Bool :=
  if (p.url != "") && containsSub p.url B2C_DOMAIN then true
  else p.hasPasswordInput

/-- Classification `main` effectively implements when every inspection
succeeds: the waiting-room loop (line 551) runs before the login check
(line 557), and a page that is neither is treated as the scheduling
page. -/
def classify (p : PageSnapshot) : PageState :=
  if is_waiting_room_of p then .WaitingRoom
  else if is_login_required_of p then .LoginChallenge
  else .SchedulingPage

/-- Decision order as the specification words it (identity-provider
domain, then password input, then waiting-room background, then
scheduling page), stated for comparison with `classify`. -/
def classifySpecOrder (p : PageSnapshot) : PageState :=
  if (p.url != "") && containsSub p.url B2C_DOMAIN then .LoginChallenge
  else if p.hasPasswordInput then .LoginChallenge
  else if is_waiting_room_of p then .WaitingRoom
  else .SchedulingPage

/-! Captcha extraction and solving (`_extract_captcha_data_url`,
`_solve_captcha_with_openai`, `attempt_captcha_solve`, lines 253-405) -/

/-- Outcome of one polling attempt of the captcha extractor. -/
inductive ExtractOutcome
  | elementMissing
  | srcNotLoaded
  | raised
  | got (dataUrl : String)
  deriving DecidableEq, Repr

/-- Retry loop of `_extract_captcha_data_url`, driven by the outcome of
each attempt: returns the result, the number of attempts performed
starting at index `attempt` with `remaining` loop iterations left, and
the list of sleeps performed (seconds).  The element-missing and
source-not-loaded paths sleep before `continue` even on the last
iteration; the exception path sleeps only when another iteration
follows. -/
def extractFrom (outcome : Nat → ExtractOutcome) (attempt remaining : Nat) :
    Option String × Nat × List Nat :=
  match remaining with
  | 0 => (none, 0, [])
  | r + 1 =>
    match outcome attempt with
    | .got s => (some s, 1, [])
    | .raised =>
      let step := extractFrom outcome (attempt + 1) r
      (step.1, step.2.1 + 1,
        if r = 0 then step.2.2 else RETRY_DELAY_SECONDS :: step.2.2)
    | _ =>
      let step := extractFrom outcome (attempt + 1) r
      (step.1, step.2.1 + 1, RETRY_DELAY_SECONDS :: step.2.2)

/-- Function `_extract_captcha_data_url`: up to `MAX_RETRIES` polling
attempts, then `None`. -/
def extract_captcha_data_url (outcome : Nat → ExtractOutcome) :
    Option String × Nat × List Nat :=
  extractFrom outcome 0 MAX_RETRIES

/-- Outcome of one service request of the captcha solver. -/
inductive SolveOutcome
  | raised
  | answered (text : String)
  deriving DecidableEq, Repr

/-- Retry loop of `_solve_captcha_with_openai`: each iteration issues one
service request; a failed request is followed by a sleep of
`RETRY_DELAY_SECONDS * (attempt + 1)` unless it was the last attempt. -/
def solveFrom (outcome : Nat → SolveOutcome) (attempt remaining : Nat) :
    Option String × Nat × List Nat :=
  match remaining with
  | 0 => (none, 0, [])
  | r + 1 =>
    match outcome attempt with
    | .answered t => (some t, 1, [])
    | .raised =>
      if r = 0 then (none, 1, [])
      else
        let step := solveFrom outcome (attempt + 1) r
        (step.1, step.2.1 + 1, RETRY_DELAY_SECONDS * (attempt + 1) :: step.2.2)

/-- Function `_solve_captcha_with_openai`: with no API key configured it
returns `None` without any request; otherwise up to `MAX_RETRIES`
service requests. -/
def solve_captcha_with_openai (hasApiKey : Bool) (outcome : Nat → SolveOutcome) :
    Option String × Nat × List Nat :=
  if hasApiKey then solveFrom outcome 0 MAX_RETRIES else (none, 0, [])

/-- Read access to the per-image attempt registry
`attempt_captcha_solve._attempt_registry` (a dict keyed by the captcha
image's data URL); the most recent binding is found first, a missing key
reads as zero attempts. -/
def regGet : List (String × Nat) → String → Nat
  | [], _ => 0
  | (k, n) :: rest, u => if (k == u) = true then n else regGet rest u

/-- Registry logic of `attempt_captcha_solve` (lines 373-383): refuse
when the image already has `MAX_RETRIES` recorded attempts, otherwise
record one more attempt and call the solver.  Returns whether
`_solve_captcha_with_openai` was invoked, with the updated registry. -/
def attemptRegistryStep (reg : List (String × Nat)) (dataUrl : String) :
    Bool × List (String × Nat) :=
  let attempts := regGet reg dataUrl
  if MAX_RETRIES ≤ attempts then (false, reg)
  else (true, (dataUrl, attempts + 1) :: reg)

/-- Number of solver invocations issued for image fingerprint `u` over a
whole process run: `urls` lists the data URL extracted on each successive
call of `attempt_captcha_solve` during the run, `reg` the registry state
those calls start from. -/
def solveCallCount (urls : List String) (reg : List (String × Nat)) (u : String) : Nat :=
  match urls with
  | [] => 0
  | v :: rest =>
    let step := attemptRegistryStep reg v
    (if step.1 && (v == u) then 1 else 0) + solveCallCount rest step.2 u

/-! First-run preference prompt (`main`, lines 519-542, and
`load_slot_prefs`). -/

/-- Shape of a date string offered to the prompt validation: empty,
well-formed `YYYY-MM-DD` (accepted by `datetime.strptime` with format
`%Y-%m-%d`), or non-empty but unparseable. -/
inductive DateInput
  | empty
  | wellFormed (d : YMD)
  | malformed (s : String)
  deriving DecidableEq, Repr

/-- Function `valid_date` of the first-run prompt: empty input counts as
valid (meaning no filtering), as does anything `strptime` parses. -/
def valid_date : DateInput → Bool
  | .empty => true
  | .wellFormed _ => true
  | .malformed _ => false

/-- Preference record persisted in `slot_prefs.json`. -/
structure SlotPrefs where
  start_date : DateInput
  end_date : DateInput
  deriving DecidableEq, Repr

/-- First-run preference logic of `main`: ask only when nothing is on
disk (`if not prefs`; any stored record has both keys and is truthy);
when either entered date fails validation, save empty preferences
instead of re-prompting.  Returns the preferences in force and whether
the user was prompted. -/
def resolveSlotPrefs (stored : Option SlotPrefs) (userStart userEnd : DateInput) :
    SlotPrefs × Bool :=
  match stored with
  | some p => (p, false)
  | none =>
    if valid_date userStart && valid_date userEnd then
      ({ start_date := userStart, end_date := userEnd }, true)
    else
      ({ start_date := DateInput.empty, end_date := DateInput.empty }, true)

/-- Translation `inject_fetch_hook` applies to a stored preference string
when embedding it as the hook's `START_DATE`/`END_DATE` constant. -/
def toHookDate : DateInput → HookDate
  | .empty => HookDate.unset
  | .wellFormed d => HookDate.valid d
  | .malformed _ => HookDate.invalid

/-! Helper lemmas -/

theorem jsDateTime_start_le_iff (a b : YMD)
    (ha : a.inCalendarRange = true) (hb : b.inCalendarRange = true) :
    (jsDateTime a 0 ≤ jsDateTime b 0) ↔ a.dateLe b := by
  simp only [YMD.inCalendarRange, Bool.and_eq_true, decide_eq_true_eq] at ha hb
  unfold jsDateTime YMD.dateLe
  omega

theorem jsDateTime_le_end_iff (a b : YMD)
    (ha : a.inCalendarRange = true) (hb : b.inCalendarRange = true) :
    (jsDateTime a 0 ≤ jsDateTime b 86399) ↔ a.dateLe b := by
  simp only [YMD.inCalendarRange, Bool.and_eq_true, decide_eq_true_eq] at ha hb
  unfold jsDateTime YMD.dateLe
  omega

theorem dayMatches_iff (s e : YMD) (d : ScheduleDay)
    (hs : s.inCalendarRange = true) (he : e.inCalendarRange = true)
    (hd : d.date.all YMD.inCalendarRange = true) :
    dayMatches s e d = true ↔ ∃ dt, d.date = some dt ∧ s.dateLe dt ∧ dt.dateLe e := by
  cases hdt : d.date with
  | none => simp [dayMatches, hdt]
  | some dt =>
    rw [hdt] at hd
    rw [Option.all_some] at hd
    simp only [dayMatches, hdt, Bool.and_eq_true, decide_eq_true_eq, Option.some.injEq]
    constructor
    · rintro ⟨h1, h2⟩
      exact ⟨dt, rfl, (jsDateTime_start_le_iff s dt hs hd).mp h1,
        (jsDateTime_le_end_iff dt e hd he).mp h2⟩
    · rintro ⟨dt2, rfl, h1, h2⟩
      exact ⟨(jsDateTime_start_le_iff s dt hs hd).mpr h1,
        (jsDateTime_le_end_iff dt e hd he).mpr h2⟩

theorem filter_length_pos_iff {α : Type} (l : List α) (p : α → Bool) :
    (0 < (l.filter p).length) ↔ ∃ x ∈ l, p x = true := by
  rw [List.length_pos_iff_exists_mem]
  constructor
  · rintro ⟨x, hx⟩
    rw [List.mem_filter] at hx
    exact ⟨x, hx.1, hx.2⟩
  · rintro ⟨x, hl, hp⟩
    exact ⟨x, List.mem_filter.mpr ⟨hl, hp⟩⟩

/-! Claim theorems -/

/-- C1: for every schedule-day list `D` and configured range with both
dates non-empty, the hook filters `D` to the days whose date lies in the
inclusive range `[startDate 00:00:00, endDate 23:59:59]` (equivalently,
whose calendar date is between the two boundary dates inclusive) and
reports availability true iff that filtered set is non-empty; with both
dates unset, availability is true iff the raw list is non-empty. -/
theorem C1_availability_filter (D : List ScheduleDay) (s e : YMD)
    (hs : s.inCalendarRange = true) (he : e.inCalendarRange = true)
    (hD : D.all (fun d => d.date.all YMD.inCalendarRange) = true) :
    (∀ d ∈ D,
      (dayMatches s e d = true ↔ ∃ dt, d.date = some dt ∧ s.dateLe dt ∧ dt.dateLe e)) ∧
    (analyseAvailability ⟨HookDate.valid s, HookDate.valid e⟩ (some D) = true ↔
      ∃ d ∈ D, ∃ dt, d.date = some dt ∧ s.dateLe dt ∧ dt.dateLe e) ∧
    (analyseAvailability ⟨HookDate.unset, HookDate.unset⟩ (some D) = true ↔ D ≠ []) := by
  have hDm : ∀ d ∈ D, d.date.all YMD.inCalendarRange = true := by
    intro d hd
    exact List.all_eq_true.mp hD d hd
  refine ⟨fun d hd => dayMatches_iff s e d hs he (hDm d hd), ?_, ?_⟩
  · have hred : analyseAvailability ⟨HookDate.valid s, HookDate.valid e⟩ (some D) =
        decide (0 < (D.filter (dayMatches s e)).length) := rfl
    rw [hred, decide_eq_true_eq, filter_length_pos_iff]
    constructor
    · rintro ⟨d, hd, hm⟩
      exact ⟨d, hd, (dayMatches_iff s e d hs he (hDm d hd)).mp hm⟩
    · rintro ⟨d, hd, hm⟩
      exact ⟨d, hd, (dayMatches_iff s e d hs he (hDm d hd)).mpr hm⟩
  · have hred : analyseAvailability ⟨HookDate.unset, HookDate.unset⟩ (some D) =
        decide (0 < D.length) := rfl
    rw [hred, decide_eq_true_eq, List.length_pos]

/-- Witness for C1 at the spec's scenario A: one schedule day 2025-03-10
against the range 2025-03-01 .. 2025-03-31. -/
theorem C1_availability_filter_witness :
    analyseAvailability
      ⟨HookDate.valid ⟨2025, 3, 1⟩, HookDate.valid ⟨2025, 3, 31⟩⟩
      (some [⟨some ⟨2025, 3, 10⟩⟩]) = true :=
  (C1_availability_filter [⟨some ⟨2025, 3, 10⟩⟩] ⟨2025, 3, 1⟩ ⟨2025, 3, 31⟩
      (by decide) (by decide) (by decide)).2.1.mpr
    ⟨⟨some ⟨2025, 3, 10⟩⟩, by simp, ⟨2025, 3, 10⟩, rfl, by decide, by decide⟩

theorem installN_fresh_succ (m : Nat) : installN (m + 1) freshContext = ⟨true, 1, 1⟩ := by
  induction m with
  | zero => rfl
  | succ k ih =>
    show installHook (installN (k + 1) freshContext) = _
    rw [ih]
    rfl

/-- C2: a second installation of the interception hook into the same live
page context is a no-op (the guard flag short-circuits the installer),
so any positive number of install attempts against a fresh context
leaves exactly one wrapper layer active, and the hook's response
analysis runs exactly once per qualifying network response. -/
theorem C2_hook_idempotent (c : PageContext) (n : Nat) (hn : 1 ≤ n) :
    (c.hookInstalled = true → installHook c = c) ∧
    installHook (installHook c) = installHook c ∧
    installN n freshContext = ⟨true, 1, 1⟩ ∧
    hookFireCount (installN n freshContext) true = 1 := by
  have hguard : ∀ x : PageContext, x.hookInstalled = true → installHook x = x := by
    intro x hx
    simp [installHook, hx]
  have hset : ∀ x : PageContext, (installHook x).hookInstalled = true := by
    intro x
    unfold installHook
    split
    · assumption
    · rfl
  obtain ⟨m, rfl⟩ : ∃ m, n = m + 1 := ⟨n - 1, by omega⟩
  refine ⟨hguard c, hguard _ (hset c), installN_fresh_succ m, ?_⟩
  rw [installN_fresh_succ m]
  rfl

/-- Witness for C2: two installs into a fresh context leave one wrapper,
and an install into an already-guarded context changes nothing. -/
theorem C2_hook_idempotent_witness :
    installN 2 freshContext = ⟨true, 1, 1⟩ ∧ installHook ⟨true, 3, 3⟩ = ⟨true, 3, 3⟩ :=
  ⟨(C2_hook_idempotent freshContext 2 (by decide)).2.2.1,
    (C2_hook_idempotent ⟨true, 3, 3⟩ 2 (by decide)).1 rfl⟩

theorem is_login_required_ok (u : String) (b : Bool) :
    ∃ nl : Bool, is_login_required (Except.ok u) (Except.ok b) = Except.ok nl := by
  unfold is_login_required
  dsimp only
  split
  · exact ⟨true, rfl⟩
  · exact ⟨b, rfl⟩

theorem orchestratorLoginPhase_ok (pre post : List StyleProbe) (u : String) (b r : Bool) :
    orchestratorLoginPhase ⟨pre, Except.ok u, Except.ok b, Except.ok r, post⟩ =
      Except.ok () := by
  obtain ⟨nl, hnl⟩ := is_login_required_ok u b
  unfold orchestratorLoginPhase
  dsimp only
  rw [hnl]
  cases nl <;> cases r <;> rfl

/-- C3, counterexample: the claim says no component failure propagates
past the Session Orchestrator, yet an exception raised while the
orchestrator checks whether login is required (for example the password
query of `is_login_required` raising mid-navigation) escapes `main`:
the phase evaluates to an error instead of completing. -/
theorem C3_counterexample :
    orchestratorLoginPhase
      ⟨[], Except.error (), Except.ok false, Except.ok true, []⟩ =
      Except.error () := rfl

/-- C3, amended: failures of the waiting-room inspection are swallowed
inside `is_waiting_room` (the orchestrator's waiting loops cannot raise,
whatever the probes do), and the hook supervisor swallows injection
failures; but the `is_login_required` and `perform_login` calls are
unwrapped, so the login phase completes only when those calls do not
raise — an exception there propagates past the orchestrator. -/
theorem C3_amended_boundaries (env : OrchEnv) (c : PageContext)
    (hu : ∃ u, env.urlProbe = Except.ok u)
    (hp : ∃ b, env.pwdProbe = Except.ok b)
    (hl : ∃ r, env.loginResult = Except.ok r) :
    orchestratorLoginPhase env = Except.ok () ∧ ensureFetchHookStep c true = c := by
  obtain ⟨preP, uP, pP, lP, postP⟩ := env
  obtain ⟨u, hu⟩ := hu
  obtain ⟨b, hp⟩ := hp
  obtain ⟨r, hl⟩ := hl
  simp only at hu hp hl
  subst hu
  subst hp
  subst hl
  exact ⟨orchestratorLoginPhase_ok preP postP u b r, rfl⟩

/-- Witness for C3's amended statement: probes that raise inside the
waiting-room loops do not prevent completion when the unwrapped calls
succeed. -/
theorem C3_amended_boundaries_witness :
    orchestratorLoginPhase
      ⟨[Except.error ()], Except.ok "a.b2clogin.com", Except.ok true,
        Except.ok false, [Except.error ()]⟩ = Except.ok () ∧
    ensureFetchHookStep freshContext true = freshContext :=
  C3_amended_boundaries _ freshContext ⟨_, rfl⟩ ⟨_, rfl⟩ ⟨_, rfl⟩

/-- C4, counterexample: a page that is on the identity-provider domain
and simultaneously shows the waiting-room background is classified
WaitingRoom by the code (the orchestrator's waiting-room loop runs
before its login check), not LoginChallenge as the claimed decision
order requires; the order the claim describes is `classifySpecOrder`,
which disagrees with `classify` on this page. -/
theorem C4_counterexample :
    classify ⟨"a.b2clogin.com", false, some "waiting_room_background_en-US.png"⟩ =
      PageState.WaitingRoom ∧
    classify ⟨"a.b2clogin.com", false, some "waiting_room_background_en-US.png"⟩ ≠
      PageState.LoginChallenge ∧
    classifySpecOrder
      ⟨"a.b2clogin.com", false, some "waiting_room_background_en-US.png"⟩ =
      PageState.LoginChallenge := by
  refine ⟨by decide, by decide, by decide⟩

/-- C4, amended: the classification `main` implements checks the
waiting-room background first; only when that check fails does the login
check run (identity-provider domain in the URL first, else password
input), and a page matching neither is the scheduling page.  First
match wins, so a page showing both the waiting-room background and a
login signal is WaitingRoom, not LoginChallenge. -/
theorem C4_amended_order (p : PageSnapshot) :
    (classify p = PageState.WaitingRoom ↔ is_waiting_room_of p = true) ∧
    (classify p = PageState.LoginChallenge ↔
      (is_waiting_room_of p = false ∧ is_login_required_of p = true)) ∧
    (classify p = PageState.SchedulingPage ↔
      (is_waiting_room_of p = false ∧ is_login_required_of p = false)) := by
  unfold classify
  cases hw : is_waiting_room_of p <;> cases hl : is_login_required_of p <;> simp

theorem extractFrom_attempts_le (o : Nat → ExtractOutcome) (r a : Nat) :
    (extractFrom o a r).2.1 ≤ r := by
  induction r generalizing a with
  | zero => simp [extractFrom]
  | succ k ih =>
    unfold extractFrom
    cases o a with
    | got s => simp
    | raised =>
      dsimp only
      exact Nat.succ_le_succ (ih (a + 1))
    | elementMissing =>
      dsimp only
      exact Nat.succ_le_succ (ih (a + 1))
    | srcNotLoaded =>
      dsimp only
      exact Nat.succ_le_succ (ih (a + 1))

theorem extractFrom_delays (o : Nat → ExtractOutcome) (r a : Nat) :
    ∀ d ∈ (extractFrom o a r).2.2, d = RETRY_DELAY_SECONDS := by
  induction r generalizing a with
  | zero => simp [extractFrom]
  | succ k ih =>
    unfold extractFrom
    cases o a with
    | got s => simp
    | raised =>
      dsimp only
      intro d hd
      by_cases hk : k = 0
      · rw [if_pos hk] at hd
        exact ih (a + 1) d hd
      · rw [if_neg hk] at hd
        rcases List.mem_cons.mp hd with h | h
        · exact h
        · exact ih (a + 1) d h
    | elementMissing =>
      dsimp only
      intro d hd
      rcases List.mem_cons.mp hd with h | h
      · exact h
      · exact ih (a + 1) d h
    | srcNotLoaded =>
      dsimp only
      intro d hd
      rcases List.mem_cons.mp hd with h | h
      · exact h
      · exact ih (a + 1) d h

theorem extractFrom_exhaust (o : Nat → ExtractOutcome) (r a : Nat)
    (h : ∀ i, a ≤ i → i < a + r → ∀ s, o i ≠ ExtractOutcome.got s) :
    (extractFrom o a r).1 = none := by
  induction r generalizing a with
  | zero => rfl
  | succ k ih =>
    unfold extractFrom
    cases ho : o a with
    | got s => exact absurd ho (h a le_rfl (by omega) s)
    | raised =>
      dsimp only
      exact ih (a + 1) fun i h1 h2 s => h i (by omega) (by omega) s
    | elementMissing =>
      dsimp only
      exact ih (a + 1) fun i h1 h2 s => h i (by omega) (by omega) s
    | srcNotLoaded =>
      dsimp only
      exact ih (a + 1) fun i h1 h2 s => h i (by omega) (by omega) s

theorem solveFrom_attempts_le (o : Nat → SolveOutcome) (r a : Nat) :
    (solveFrom o a r).2.1 ≤ r := by
  induction r generalizing a with
  | zero => simp [solveFrom]
  | succ k ih =>
    unfold solveFrom
    cases o a with
    | answered t => simp
    | raised =>
      dsimp only
      by_cases hk : k = 0
      · rw [if_pos hk]
        dsimp only
        omega
      · rw [if_neg hk]
        dsimp only
        exact Nat.succ_le_succ (ih (a + 1))

theorem solveFrom_attempts_pos (o : Nat → SolveOutcome) (r a : Nat) (hr : 1 ≤ r) :
    1 ≤ (solveFrom o a r).2.1 := by
  obtain ⟨k, rfl⟩ : ∃ k, r = k + 1 := ⟨r - 1, by omega⟩
  unfold solveFrom
  cases o a with
  | answered t => simp
  | raised =>
    dsimp only
    by_cases hk : k = 0
    · rw [if_pos hk]
    · rw [if_neg hk]
      dsimp only
      omega

theorem solveFrom_exhaust (o : Nat → SolveOutcome) (r a : Nat)
    (h : ∀ i, a ≤ i → i < a + r → ∀ t, o i ≠ SolveOutcome.answered t) :
    (solveFrom o a r).1 = none := by
  induction r generalizing a with
  | zero => rfl
  | succ k ih =>
    unfold solveFrom
    cases ho : o a with
    | answered t => exact absurd ho (h a le_rfl (by omega) t)
    | raised =>
      dsimp only
      by_cases hk : k = 0
      · rw [if_pos hk]
      · rw [if_neg hk]
        dsimp only
        exact ih (a + 1) fun i h1 h2 t => h i (by omega) (by omega) t

theorem solveFrom_delays (o : Nat → SolveOutcome) (r a : Nat) :
    (solveFrom o a r).2.2 =
      (List.range ((solveFrom o a r).2.1 - 1)).map
        (fun j => RETRY_DELAY_SECONDS * (a + j + 1)) := by
  induction r generalizing a with
  | zero => rfl
  | succ k ih =>
    unfold solveFrom
    cases o a with
    | answered t => rfl
    | raised =>
      dsimp only
      by_cases hk : k = 0
      · rw [if_pos hk]
        rfl
      · rw [if_neg hk]
        dsimp only
        obtain ⟨m, hm⟩ : ∃ m, (solveFrom o (a + 1) k).2.1 = m + 1 :=
          ⟨(solveFrom o (a + 1) k).2.1 - 1, by
            have := solveFrom_attempts_pos o k (a + 1) (by omega)
            omega⟩
        rw [ih (a + 1), hm]
        simp only [Nat.add_sub_cancel, List.range_succ_eq_map, List.map_cons,
          List.map_map]
        congr 1
        simp
        intro x hx
        left
        omega

/-- C5: the captcha extractor performs at most `MAX_RETRIES` polling
attempts, every sleep between them is `RETRY_DELAY_SECONDS`, and it
returns `None` when no attempt yields an image; the solver client issues
at most `MAX_RETRIES` service requests, its sleeps form the linear
backoff `RETRY_DELAY_SECONDS * attemptNumber`, and it returns `None`
when every request fails. -/
theorem C5_bounded_retry (eo : Nat → ExtractOutcome) (so : Nat → SolveOutcome)
    (hasKey : Bool) :
    (extract_captcha_data_url eo).2.1 ≤ MAX_RETRIES ∧
    (∀ d ∈ (extract_captcha_data_url eo).2.2, d = RETRY_DELAY_SECONDS) ∧
    ((∀ i, i < MAX_RETRIES → ∀ s, eo i ≠ ExtractOutcome.got s) →
      (extract_captcha_data_url eo).1 = none) ∧
    (solve_captcha_with_openai hasKey so).2.1 ≤ MAX_RETRIES ∧
    ((solve_captcha_with_openai hasKey so).2.2 =
      (List.range ((solve_captcha_with_openai hasKey so).2.1 - 1)).map
        (fun j => RETRY_DELAY_SECONDS * (j + 1))) ∧
    ((∀ i, i < MAX_RETRIES → ∀ t, so i ≠ SolveOutcome.answered t) →
      (solve_captcha_with_openai hasKey so).1 = none) := by
  refine ⟨extractFrom_attempts_le eo MAX_RETRIES 0,
    extractFrom_delays eo MAX_RETRIES 0,
    fun h => extractFrom_exhaust eo MAX_RETRIES 0 fun i h1 h2 s => h i (by omega) s,
    ?_, ?_, ?_⟩
  · cases hasKey with
    | false => simp [solve_captcha_with_openai]
    | true => exact solveFrom_attempts_le so MAX_RETRIES 0
  · cases hasKey with
    | false => simp [solve_captcha_with_openai]
    | true =>
      show (solveFrom so 0 MAX_RETRIES).2.2 = _
      rw [solveFrom_delays so MAX_RETRIES 0]
      apply List.map_congr_left
      intro j hj
      simp
  · cases hasKey with
    | false => intro h; rfl
    | true =>
      intro h
      exact solveFrom_exhaust so MAX_RETRIES 0 fun i h1 h2 t => h i (by omega) t

/-- Witness for C5: with the captcha element never appearing and every
service request failing, both components return `None`. -/
theorem C5_bounded_retry_witness :
    (extract_captcha_data_url fun _ => ExtractOutcome.elementMissing).1 = none ∧
    (solve_captcha_with_openai true fun _ => SolveOutcome.raised).1 = none :=
  ⟨(C5_bounded_retry (fun _ => ExtractOutcome.elementMissing)
      (fun _ => SolveOutcome.raised) true).2.2.1
      (fun _ _ _ h => ExtractOutcome.noConfusion h),
    (C5_bounded_retry (fun _ => ExtractOutcome.elementMissing)
      (fun _ => SolveOutcome.raised) true).2.2.2.2.2
      (fun _ _ _ h => SolveOutcome.noConfusion h)⟩

theorem solveCallCount_le (urls : List String) (u : String) (reg : List (String × Nat)) :
    solveCallCount urls reg u ≤ MAX_RETRIES - regGet reg u := by
  induction urls generalizing reg with
  | nil => simp [solveCallCount]
  | cons v rest ih =>
    unfold solveCallCount attemptRegistryStep
    dsimp only
    by_cases hcap : MAX_RETRIES ≤ regGet reg v
    · rw [if_pos hcap]
      have h2 := ih reg
      simp only [Bool.false_and]
      simp
      omega
    · rw [if_neg hcap]
      by_cases hvu : (v == u) = true
      · have hv : v = u := by simpa using hvu
        subst hv
        have h2 := ih ((v, regGet reg v + 1) :: reg)
        simp only [regGet, hvu, if_pos] at h2
        simp only [Bool.true_and, hvu]
        simp
        omega
      · have h2 := ih ((v, regGet reg v + 1) :: reg)
        simp [regGet, hvu] at h2
        simp only [Bool.true_and, hvu]
        simp
        omega

/-- C6: over an arbitrary run (any sequence of `attempt_captcha_solve`
calls, each keyed by the captcha image data URL it extracted), at most
`MAX_RETRIES` solver invocations are ever issued for a fixed image
fingerprint, and once the registry records `MAX_RETRIES` attempts for a
fingerprint a further call with that image is refused without invoking
the solver and without touching the registry. -/
theorem C6_per_image_cap (urls : List String) (u : String)
    (reg : List (String × Nat)) (hcap : MAX_RETRIES ≤ regGet reg u) :
    solveCallCount urls [] u ≤ MAX_RETRIES ∧
    attemptRegistryStep reg u = (false, reg) := by
  constructor
  · have h := solveCallCount_le urls u []
    simpa [regGet] using h
  · unfold attemptRegistryStep
    rw [if_pos hcap]

/-- Witness for C6: six successive calls for the same image issue at most
five solver invocations, and a registry already at the cap refuses. -/
theorem C6_per_image_cap_witness :
    solveCallCount ["img", "img", "img", "img", "img", "img"] [] "img" ≤ MAX_RETRIES ∧
    attemptRegistryStep [("img", 5)] "img" = (false, [("img", 5)]) :=
  C6_per_image_cap ["img", "img", "img", "img", "img", "img"] "img"
    [("img", 5)] (by decide)

/-- C7: an intercepted target response whose body is unparseable JSON, or
parses to something without a `ScheduleDays` array, yields availability
false on both the fetch and the XHR interception paths, so the
notification request is never fired for such a response. -/
theorem C7_malformed_fail_safe (p : HookPrefs) (url : String) :
    fetchHookNotifies p url ParsedBody.malformed = false ∧
    xhrLoadNotifies p url ParsedBody.malformed = false ∧
    fetchHookNotifies p url ParsedBody.notAnArray = false ∧
    xhrLoadNotifies p url ParsedBody.notAnArray = false ∧
    analyseAvailability p none = false := by
  have hnone : ∀ q : HookPrefs, analyseAvailability q none = false := by
    rintro ⟨sd, ed⟩
    cases sd <;> cases ed <;> rfl
  refine ⟨?_, ?_, ?_, ?_, hnone p⟩ <;>
    · first
      | (unfold fetchHookNotifies; split <;> simp [hnone])
      | (unfold xhrLoadNotifies; split <;> simp [hnone])

/-- C8, counterexample: a failing waiting-room probe is treated as a
definitive "not the waiting room" — the loop exits at once, leaving the
very next probe (which would have shown the waiting room) unexamined,
instead of retrying — and a failing inspection inside the login check
produces an error rather than a "not yet determined" result. -/
theorem C8_counterexample :
    is_waiting_room (Except.error ()) = false ∧
    waitOutWaitingRoom
      [Except.error (), Except.ok (some "waiting_room_background_en-US.png")] =
      [Except.ok (some "waiting_room_background_en-US.png")] ∧
    is_login_required (Except.error ()) (Except.ok false) = Except.error () :=
  ⟨rfl, rfl, rfl⟩

/-- C8, amended: an inspection failure inside `is_waiting_room` is
swallowed and treated as a definitive "not the waiting room", so the
orchestrator's waiting loop exits immediately (no retry of the failed
check), while an inspection failure inside `is_login_required`
propagates to the caller as an exception. -/
theorem C8_amended_inspection_failure (rest : List StyleProbe)
    (pwdProbe : Except Unit Bool) :
    is_waiting_room (Except.error ()) = false ∧
    waitOutWaitingRoom (Except.error () :: rest) = rest ∧
    is_login_required (Except.error ()) pwdProbe = Except.error () :=
  ⟨rfl, rfl, rfl⟩

/-- C9: when exactly one of the two preference dates is a non-empty
string (whether or not it parses as a date) and the other is empty, the
hook applies no date filtering: availability coincides with the
both-unset behaviour, true exactly when the raw list is non-empty. -/
theorem C9_single_bound_no_filtering (hd : HookDate) (sd : Option (List ScheduleDay)) :
    analyseAvailability ⟨hd, HookDate.unset⟩ sd =
      analyseAvailability ⟨HookDate.unset, HookDate.unset⟩ sd ∧
    analyseAvailability ⟨HookDate.unset, hd⟩ sd =
      analyseAvailability ⟨HookDate.unset, HookDate.unset⟩ sd ∧
    (∀ D, analyseAvailability ⟨HookDate.unset, HookDate.unset⟩ (some D) =
      decide (0 < D.length)) := by
  refine ⟨?_, ?_, fun D => rfl⟩ <;> cases hd <;> cases sd <;> rfl

/-- C10: a first-run prompt entry that is non-empty but not `YYYY-MM-DD`
makes the program save empty-string preferences (no filtering) instead
of re-prompting; a later run that finds those stored preferences does
not prompt again, and the hook then reports availability on any
non-empty schedule-day list. -/
theorem C10_invalid_prompt_entry (s : String) (endIn u v : DateInput)
    (D : List ScheduleDay) :
    resolveSlotPrefs none (DateInput.malformed s) endIn =
      (⟨DateInput.empty, DateInput.empty⟩, true) ∧
    resolveSlotPrefs none u (DateInput.malformed s) =
      (⟨DateInput.empty, DateInput.empty⟩, true) ∧
    resolveSlotPrefs (some ⟨DateInput.empty, DateInput.empty⟩) u v =
      (⟨DateInput.empty, DateInput.empty⟩, false) ∧
    analyseAvailability
      ⟨toHookDate DateInput.empty, toHookDate DateInput.empty⟩ (some D) =
      decide (0 < D.length) := by
  refine ⟨rfl, ?_, rfl, rfl⟩
  cases u <;> rfl

end VisaChecker
